import Mathlib

/-!
# data_alchemist — verification of the validation / auto-fix engine and the
allocation simulator / optimizer

This file is a shallow embedding of the core of the repository:

* `src/lib/aiService.ts` — `simulateAllocation`, `simulateTaskAssignment`,
  `optimizeAllocation`;
* `src/components/ValidationPanel.tsx` — the validators
  (`validateMissingColumns`, `validateDuplicateIDs`, `validateDataTypes`,
  `validateReferences`, `validateSkillCoverage`, `generateAISuggestions`),
  their driver `runValidation`, and `autoFixIssue`.

Modelling conventions:

* JavaScript field values are modelled by `JSVal` (string, integer number, or
  `undefined`).  The repository's data rows come from CSV/XLSX ingestion, so
  integer-valued numbers suffice for every claim considered here; `NaN`,
  floats, booleans, objects and `null` never occur in the traces the claims
  exercise and are outside the model.
* JavaScript numeric arithmetic is modelled over `ℤ`/`ℚ`.  The float literals
  `0.8`, `0.6`, `0.5`, `0.3`, `1.1`, `1.15` are modelled by the exact
  rationals `4/5`, `3/5`, `1/2`, `3/10`, `11/10`, `23/20`.  Every use in the
  source compares such a product against an integer (or feeds it to
  `Math.floor` of an integer multiple); for the integer operands arising here
  the double-precision results round to values on the same side of each
  comparison, so the rational model decides each branch exactly as the
  JavaScript code does.
* `Math.random()` is modelled by an explicit stream `rand : ℕ → ℚ` of draws;
  `simulateTaskAssignment` consumes the draw whose index is the position of
  the worker in the worker collection.  Genuine `Math.random` draws lie in
  `[0, 1)`; theorems that need this carry it as a hypothesis.
* A thrown JavaScript exception (e.g. `TypeError: split is not a function`
  when `.split` is invoked on a non-string) is modelled by `Except String`.
* `JSON.parse` is a platform primitive, not repository code.  Its success or
  failure on a string is abstracted as a predicate parameter `jp`; no theorem
  below depends on which strings parse.
* React state updates, toasts and progress reporting are presentation
  concerns and are not part of the embedded functions.
-/

/-- A JavaScript runtime value as it occurs in the ingested data rows:
a string, an (integer) number, or `undefined` (absent field). -/
inductive JSVal where
  | vStr (s : String)
  | vNum (n : Int)
  | vUndef
deriving DecidableEq

namespace JSVal

/-- JavaScript truthiness: `""`, `0` and `undefined` are falsy. -/
def truthy : JSVal → Bool
  | vStr s => s ≠ ""
  | vNum n => n ≠ 0
  | vUndef => false

/-- JavaScript string coercion (as used by template literals). -/
def jsToString : JSVal → String
  | vStr s => s
  | vNum n => toString n
  | vUndef => "undefined"

end JSVal

open JSVal

/-- `a || b` on JavaScript values. -/
def jsOr (a b : JSVal) : JSVal := if a.truthy then a else b

/-- Decimal digits of a leading digit run. -/
def takeDigits (cs : List Char) : List Char := cs.takeWhile (fun c => c.isDigit)

/-- Numeric value of a list of decimal digits. -/
def digitsVal (cs : List Char) : Nat :=
  cs.foldl (fun acc c => acc * 10 + (c.toNat - '0'.toNat)) 0

/-- `parseInt` on a string (radix 10): skip leading whitespace, optional
sign, then the longest run of decimal digits; `none` models `NaN`.
(The `0x` hexadecimal prefix of the real `parseInt` is outside the model;
no claim exercises it.) -/
def parseIntStr (s : String) : Option Int :=
  let cs := s.toList.dropWhile (fun c => c = ' ' ∨ c = '\t' ∨ c = '\n' ∨ c = '\r')
  match cs with
  | '-' :: rest =>
      let ds := takeDigits rest
      if ds = [] then none else some (-(digitsVal ds : Int))
  | '+' :: rest =>
      let ds := takeDigits rest
      if ds = [] then none else some (digitsVal ds)
  | _ =>
      let ds := takeDigits cs
      if ds = [] then none else some (digitsVal ds)

/-- `parseInt` on a JavaScript value: numbers are coerced through their
decimal string form (the identity for integers), `undefined` gives `NaN`. -/
def jsParseInt : JSVal → Option Int
  | vStr s => parseIntStr s
  | vNum n => some n
  | vUndef => none

/-- `x || d` where `x` is the result of a `parseInt` (NaN and `0` are falsy). -/
def jsOrNum (x : Option Int) (d : Int) : Int :=
  match x with
  | some n => if n = 0 then d else n
  | none => d

/-- `v.split(",")`: defined on strings, a `TypeError` on any other value. -/
def jsSplit : JSVal → Except String (List String)
  | vStr s => .ok (s.splitOn ",")
  | _ => .error "TypeError: split is not a function"

/-- Whether `pat` occurs contiguously in `l` (JavaScript `String.includes`). -/
def containsSub (l pat : List Char) : Bool :=
  match l with
  | [] => pat = []
  | _ :: t => pat.isPrefixOf l || containsSub t pat

/-- `s.includes(pat)` for strings. -/
def strIncludes (s pat : String) : Bool := containsSub s.toList pat.toList

/-- `Math.round` (round half toward `+∞`, i.e. the floor of `x + 1/2`;
`Rat.floor` is used so that the definition evaluates by kernel reduction). -/
def jsRound (x : ℚ) : ℤ := Rat.floor (x + 1/2)

section Simulator
/-!
## The allocation simulator and optimizer (`src/lib/aiService.ts`)

The simulator reads the worker and task collections through a fixed set of
fields, so those records are embedded as structures.  `Option` models a
missing (`undefined`) field.  Per the ingestion contract numeric fields are
non-negative integers; `MaxLoadPerPhase` is modelled as `Option ℕ`, with
`none` for a missing field (the source applies `|| 5` to it, which also
replaces a present `0`).
-/

/-- A worker record as read by the simulator. -/
structure SimWorker where
  WorkerID : String
  WorkerName : String
  Skills : Option String
  AvailableSlots : List Int
  MaxLoadPerPhase : Option Nat
deriving DecidableEq

/-- A task record as read by the simulator. -/
structure SimTask where
  TaskID : Option String
  TaskName : Option String
  RequiredSkills : Option String
deriving DecidableEq

/-- The worker and task collections handed to the simulator
(`data.workers`, `data.tasks`; the client collection is not read by the
simulator or optimizer). -/
structure SimData where
  workers : List SimWorker
  tasks : List SimTask
deriving DecidableEq

/-- A rule object.  `simulateAllocation`/`simulateTaskAssignment` receive the
rule list but never read it, so its shape is irrelevant; we embed a rule as a
JavaScript object (key/value pairs). -/
def SimRule := List (String × JSVal)

/-- The priority-weights object; likewise never read by the simulator. -/
def SimPriorities := List (String × JSVal)

/-- `'low' | 'medium' | 'high'`. -/
inductive Stress where
  | low
  | medium
  | high
deriving DecidableEq

/-- The per-worker `AllocationResult` of `aiService.ts`. -/
structure AllocationResult where
  workerId : String
  workerName : String
  assignedTasks : List String
  workload : Int
  efficiency : ℚ
  stress : Stress
deriving DecidableEq

/-- `s.split(",").map(s => s.trim().toLowerCase())`. -/
def splitSkills (s : String) : List String :=
  (s.splitOn ",").map (fun x => x.trim.toLower)

/-- `worker.Skills?.split(",").map(...) || []`. -/
def workerSkillList (w : SimWorker) : List String :=
  match w.Skills with
  | some s => splitSkills s
  | none => []

/-- `task.RequiredSkills?.split(",").map(...) || []`. -/
def taskSkillList (t : SimTask) : List String :=
  match t.RequiredSkills with
  | some s => splitSkills s
  | none => []

/-- `worker.MaxLoadPerPhase || 5`: the default `5` replaces a missing field
and a present `0` (both are falsy). -/
def effectiveMaxLoad (w : SimWorker) : Nat :=
  match w.MaxLoadPerPhase with
  | some m => if m = 0 then 5 else m
  | none => 5

/-- `requiredSkills.every(skill => workerSkills.includes(skill))`. -/
def compatible (w : SimWorker) (t : SimTask) : Bool :=
  (taskSkillList t).all (fun sk => (workerSkillList w).contains sk)

/-- `task.TaskID || task.TaskName` (an `undefined` result is rendered as the
empty string; the claims never inspect that corner). -/
def taskDisplayId (t : SimTask) : String :=
  match t.TaskID with
  | some s => if s = "" then (t.TaskName.getD "") else s
  | none => t.TaskName.getD ""

/-- `simulateTaskAssignment(worker, tasks, rules)` with `r` the value the
single `Math.random()` call returns.  Mirrors `aiService.ts` lines 339–361:
empty task list short-circuits; otherwise the compatible tasks are filtered,
`assignmentCount = Math.min(maxLoad, Math.floor(r * (compatible.length + 1)))`
tasks are taken from the front, and mapped to `TaskID || TaskName`. -/
def simulateTaskAssignment (worker : SimWorker) (tasks : List SimTask)
    (_rules : List SimRule) (r : ℚ) : List String :=
  if tasks = [] then []
  else
    let compat := tasks.filter (fun t => compatible worker t)
    let maxLoad := effectiveMaxLoad worker
    let cnt := (min (maxLoad : ℤ) (Rat.floor (r * ((compat.length : ℚ) + 1)))).toNat
    (compat.take cnt).map taskDisplayId

/-- One entry of the `simulateAllocation` result for the worker at position
`i` of the worker collection (`aiService.ts` lines 156–177). -/
def allocEntry (tasks : List SimTask) (rules : List SimRule)
    (rand : ℕ → ℚ) (i : ℕ) (w : SimWorker) : AllocationResult :=
  let maxLoad := effectiveMaxLoad w
  let assigned := simulateTaskAssignment w tasks rules (rand i)
  let workload : ℤ := assigned.length
  let efficiency : ℚ := max 0 (min 100 ((workload : ℚ) / (maxLoad : ℚ) * 100))
  let stress : Stress :=
    if (workload : ℚ) > (maxLoad : ℚ) * (4/5) then .high
    else if (workload : ℚ) > (maxLoad : ℚ) * (3/5) then .medium
    else .low
  { workerId := w.WorkerID
    workerName := w.WorkerName
    assignedTasks := assigned
    workload := workload
    efficiency := efficiency
    stress := stress }

/-- The `data.workers.forEach` loop of `simulateAllocation`, carrying the
position `i` of the current worker (which indexes its `Math.random` draw). -/
def simulateAllocGo (tasks : List SimTask) (rules : List SimRule)
    (rand : ℕ → ℚ) : ℕ → List SimWorker → List AllocationResult
  | _, [] => []
  | i, w :: ws => allocEntry tasks rules rand i w :: simulateAllocGo tasks rules rand (i + 1) ws

/-- `simulateAllocation(data, rules, priorities)` (`aiService.ts` 149–180),
with the `Math.random` draws made explicit as `rand`. -/
def simulateAllocation (data : SimData) (rules : List SimRule)
    (_priorities : SimPriorities) (rand : ℕ → ℚ) : List AllocationResult :=
  simulateAllocGo data.tasks rules rand 0 data.workers

/-- The result record of `optimizeAllocation`. -/
structure OptimizationOutcome where
  before : List AllocationResult
  after : List AllocationResult
  improvements : List String
deriving DecidableEq

/-- The body of the `before.map(result => ...)` optimization transform of
`optimizeAllocation` (`aiService.ts` 193–222). -/
def optimizeEntry (data : SimData) (criteria : String)
    (before : List AllocationResult) (result : AllocationResult) : AllocationResult :=
  let w1 : ℤ :=
    if strIncludes criteria "cost" then max 1 (Rat.floor ((result.workload : ℚ) * (4/5)))
    else result.workload
  let e1 : ℚ :=
    if strIncludes criteria "cost" then min 100 (result.efficiency * (11/10))
    else result.efficiency
  let w2 : ℤ :=
    if strIncludes criteria "fair" then
      jsRound (((before.map (fun r => (r.workload : ℚ))).sum) / (before.length : ℚ))
    else w1
  let e2 : ℚ :=
    if strIncludes criteria "priority" then min 100 (result.efficiency * (23/20))
    else e1
  let workerOpt := data.workers.find? (fun w => w.WorkerID = result.workerId)
  let maxLoad : ℕ :=
    match workerOpt with
    | some w => effectiveMaxLoad w
    | none => 5
  let stress : Stress :=
    if (w2 : ℚ) > (maxLoad : ℚ) * (4/5) then .high
    else if (w2 : ℚ) > (maxLoad : ℚ) * (3/5) then .medium
    else .low
  { result with workload := w2, efficiency := e2, stress := stress }

/-- `optimizeAllocation(data, criteria)` (`aiService.ts` 183–232): `before`
is a plain simulation with empty rules and priorities, `after` applies the
criteria-dependent transform, and `improvements` is the literal list from
lines 224–229. -/
def optimizeAllocation (data : SimData) (criteria : String)
    (rand : ℕ → ℚ) : OptimizationOutcome :=
  let before := simulateAllocation data [] [] rand
  let after := before.map (optimizeEntry data criteria before)
  { before := before
    after := after
    improvements :=
      ["Reduced overall worker stress by 15%",
       "Improved task distribution efficiency by 12%",
       "Balanced workload across teams",
       "Maintained high-priority client satisfaction"] }

/-- Mean of a list of rationals (`0` for the empty list, by `x / 0 = 0`). -/
def listMean (l : List ℚ) : ℚ := l.sum / l.length

/-- Population variance of a list of rationals (`0` for the empty list). -/
def listVariance (l : List ℚ) : ℚ :=
  ((l.map (fun x => (x - listMean l) ^ 2)).sum) / l.length

end Simulator

section Validation
/-!
## The validation engine and auto-fix engine (`src/components/ValidationPanel.tsx`)

Data rows arrive from the ingestion layer as plain JavaScript objects, so a
row is embedded as an association list of field name to `JSVal`
(`Object.keys` order = list order; keys are unique).  The validators are
modelled in `Except String` because `.split` on a non-string value throws a
`TypeError`.
-/

/-- A data row: a JavaScript object. -/
abbrev Row := List (String × JSVal)

/-- `item[k]` — the value under the first (hence only) occurrence of the
key, `undefined` when the key is absent. -/
def getF : Row → String → JSVal
  | [], _ => .vUndef
  | (k', v) :: rest, k => if k' = k then v else getF rest k

/-- `item[k] = v` — replaces the value under an existing key, appends the
key otherwise (JavaScript property assignment). -/
def setF (r : Row) (k : String) (v : JSVal) : Row :=
  if k ∈ r.map Prod.fst then
    r.map (fun p => if p.1 = k then (p.1, v) else p)
  else r ++ [(k, v)]

/-- `Object.keys(item)`. -/
def rowKeys (r : Row) : List String := r.map Prod.fst

/-- The in-memory entity store: the `data` prop of the `ValidationPanel`. -/
structure Store where
  clients : List Row
  workers : List Row
  tasks : List Row
deriving DecidableEq

/-- `'clients' | 'workers' | 'tasks'`. -/
inductive EntityType where
  | clients
  | workers
  | tasks
deriving DecidableEq

/-- The string form of an entity type (used in finding ids and messages). -/
def etName : EntityType → String
  | .clients => "clients"
  | .workers => "workers"
  | .tasks => "tasks"

/-- The primary-key field of each collection. -/
def idField : EntityType → String
  | .clients => "ClientID"
  | .workers => "WorkerID"
  | .tasks => "TaskID"

/-- The collection of a store selected by entity type. -/
def Store.coll (s : Store) : EntityType → List Row
  | .clients => s.clients
  | .workers => s.workers
  | .tasks => s.tasks

/-- A `ValidationResult` (a Finding).  `entityId` is declared `string` in the
source but receives raw id values at runtime, hence `JSVal`. -/
structure ValidationResult where
  id : String
  type : String
  category : String
  message : String
  details : String
  entityType : EntityType
  entityId : JSVal
  field : Option String
  suggestion : Option String
  canAutoFix : Bool
deriving DecidableEq

/-- Required columns per collection (`ValidationPanel.tsx` 44–48). -/
def requiredFields : EntityType → List String
  | .clients => ["ClientID", "ClientName", "PriorityLevel"]
  | .workers => ["WorkerID", "WorkerName", "Skills", "AvailableSlots"]
  | .tasks => ["TaskID", "TaskName", "Duration", "RequiredSkills"]

/-- `validateMissingColumns` (`ValidationPanel.tsx` 41–73). -/
def validateMissingColumns (t : EntityType) (items : List Row) : List ValidationResult :=
  match items with
  | [] => []
  | first :: _ =>
    let headers := rowKeys first
    let missing := (requiredFields t).filter (fun f => ¬ headers.contains f)
    missing.map (fun f =>
      { id := "missing-" ++ etName t ++ "-" ++ f
        type := "error"
        category := "Missing Required Column"
        message := "Missing required column: " ++ f
        details := "The " ++ etName t ++ " data is missing the required " ++ f ++ " column."
        entityType := t
        entityId := .vStr "structure"
        field := some f
        suggestion := some ("Add a " ++ f ++ " column to your " ++ etName t ++ " data")
        canAutoFix := false })

/-- The keys of the `ids` map of `validateDuplicateIDs` in insertion order:
the truthy id values of the collection, first occurrences only. -/
def dedupKeep (l : List JSVal) : List JSVal :=
  l.foldl (fun acc v => if acc.contains v then acc else acc ++ [v]) []

/-- The Finding `validateDuplicateIDs` emits for a duplicated id. -/
def dupFinding (t : EntityType) (id : JSVal) (cnt : ℕ) : ValidationResult :=
  { id := "duplicate-" ++ etName t ++ "-" ++ id.jsToString
    type := "error"
    category := "Duplicate ID"
    message := "Duplicate " ++ idField t ++ ": " ++ id.jsToString
    details := "Found " ++ toString cnt ++ " records with the same " ++ idField t ++ ": " ++ id.jsToString
    entityType := t
    entityId := id
    field := some (idField t)
    suggestion := some ("Ensure each " ++ idField t ++ " is unique across all " ++ etName t)
    canAutoFix := true }

/-- `validateDuplicateIDs` (`ValidationPanel.tsx` 75–109): group the items'
truthy primary-key values, and emit one error per value held by more than
one record, in first-occurrence order. -/
def validateDuplicateIDs (t : EntityType) (items : List Row) : List ValidationResult :=
  let ids := (items.map (fun it => getF it (idField t))).filter JSVal.truthy
  (dedupKeep ids).filterMap (fun id =>
    let cnt := ids.count id
    if cnt > 1 then some (dupFinding t id cnt) else none)

/-- The checks `validateDataTypes` runs on the single item at position `i`
(`ValidationPanel.tsx` 114–189).  `jp` abstracts `JSON.parse` success on a
string; `JSON.parse` of a number coerces it to its decimal string, which
always parses. -/
def dataTypeChecksFor (jp : String → Bool) (t : EntityType) (i : ℕ) (item : Row) :
    List ValidationResult :=
  let priorityPart :=
    if t = .clients ∧ (getF item "PriorityLevel").truthy then
      match jsParseInt (getF item "PriorityLevel") with
      | some n =>
        if n < 1 ∨ n > 5 then
          [{ id := "invalid-priority-" ++ etName t ++ "-" ++ toString i
             type := "error"
             category := "Out-of-range Value"
             message := "Invalid PriorityLevel: " ++ (getF item "PriorityLevel").jsToString
             details := "PriorityLevel must be a number between 1 and 5"
             entityType := t
             entityId := jsOr (getF item "ClientID") (.vStr ("row-" ++ toString i))
             field := some "PriorityLevel"
             suggestion := some "Set PriorityLevel to a value between 1-5"
             canAutoFix := true }]
        else []
      | none =>
          [{ id := "invalid-priority-" ++ etName t ++ "-" ++ toString i
             type := "error"
             category := "Out-of-range Value"
             message := "Invalid PriorityLevel: " ++ (getF item "PriorityLevel").jsToString
             details := "PriorityLevel must be a number between 1 and 5"
             entityType := t
             entityId := jsOr (getF item "ClientID") (.vStr ("row-" ++ toString i))
             field := some "PriorityLevel"
             suggestion := some "Set PriorityLevel to a value between 1-5"
             canAutoFix := true }]
    else []
  let durationPart :=
    if t = .tasks ∧ (getF item "Duration").truthy then
      match jsParseInt (getF item "Duration") with
      | some n =>
        if n < 1 then
          [{ id := "invalid-duration-" ++ etName t ++ "-" ++ toString i
             type := "error"
             category := "Out-of-range Value"
             message := "Invalid Duration: " ++ (getF item "Duration").jsToString
             details := "Duration must be a positive number (≥1)"
             entityType := t
             entityId := jsOr (getF item "TaskID") (.vStr ("row-" ++ toString i))
             field := some "Duration"
             suggestion := some "Set Duration to a positive number"
             canAutoFix := true }]
        else []
      | none =>
          [{ id := "invalid-duration-" ++ etName t ++ "-" ++ toString i
             type := "error"
             category := "Out-of-range Value"
             message := "Invalid Duration: " ++ (getF item "Duration").jsToString
             details := "Duration must be a positive number (≥1)"
             entityType := t
             entityId := jsOr (getF item "TaskID") (.vStr ("row-" ++ toString i))
             field := some "Duration"
             suggestion := some "Set Duration to a positive number"
             canAutoFix := true }]
    else []
  let maxLoadPart :=
    if t = .workers ∧ (getF item "MaxLoadPerPhase").truthy then
      match jsParseInt (getF item "MaxLoadPerPhase") with
      | some n =>
        if n < 1 then
          [{ id := "invalid-maxload-" ++ etName t ++ "-" ++ toString i
             type := "error"
             category := "Out-of-range Value"
             message := "Invalid MaxLoadPerPhase: " ++ (getF item "MaxLoadPerPhase").jsToString
             details := "MaxLoadPerPhase must be a positive number"
             entityType := t
             entityId := jsOr (getF item "WorkerID") (.vStr ("row-" ++ toString i))
             field := some "MaxLoadPerPhase"
             suggestion := some "Set MaxLoadPerPhase to a positive number"
             canAutoFix := true }]
        else []
      | none =>
          [{ id := "invalid-maxload-" ++ etName t ++ "-" ++ toString i
             type := "error"
             category := "Out-of-range Value"
             message := "Invalid MaxLoadPerPhase: " ++ (getF item "MaxLoadPerPhase").jsToString
             details := "MaxLoadPerPhase must be a positive number"
             entityType := t
             entityId := jsOr (getF item "WorkerID") (.vStr ("row-" ++ toString i))
             field := some "MaxLoadPerPhase"
             suggestion := some "Set MaxLoadPerPhase to a positive number"
             canAutoFix := true }]
    else []
  let jsonPart :=
    if (getF item "AttributesJSON").truthy then
      let broken : Bool :=
        match getF item "AttributesJSON" with
        | .vStr s => ! jp s
        | .vNum _ => false
        | .vUndef => false
      if broken then
        [{ id := "invalid-json-" ++ etName t ++ "-" ++ toString i
           type := "error"
           category := "Broken JSON"
           message := "Invalid JSON in AttributesJSON"
           details := "The AttributesJSON field contains malformed JSON"
           entityType := t
           entityId := jsOr (getF item "ClientID") (jsOr (getF item "WorkerID")
             (jsOr (getF item "TaskID") (.vStr ("row-" ++ toString i))))
           field := some "AttributesJSON"
           suggestion := some "Fix the JSON syntax or clear the field"
           canAutoFix := true }]
      else []
    else []
  priorityPart ++ durationPart ++ maxLoadPart ++ jsonPart

/-- The `items.forEach` loop of `validateDataTypes`, carrying the row index. -/
def validateDataTypesGo (jp : String → Bool) (t : EntityType) :
    ℕ → List Row → List ValidationResult
  | _, [] => []
  | i, item :: rest => dataTypeChecksFor jp t i item ++ validateDataTypesGo jp t (i + 1) rest

/-- `validateDataTypes` (`ValidationPanel.tsx` 111–192). -/
def validateDataTypes (jp : String → Bool) (t : EntityType) (items : List Row) :
    List ValidationResult :=
  validateDataTypesGo jp t 0 items

/-- The Finding `validateReferences` emits for one dangling task reference. -/
def refFinding (client : Row) (i : ℕ) (taskId : String) : ValidationResult :=
  { id := "invalid-task-ref-" ++ (getF client "ClientID").jsToString ++ "-" ++ taskId
    type := "error"
    category := "Unknown Reference"
    message := "Unknown TaskID: " ++ taskId
    details := "Client " ++ (jsOr (getF client "ClientName") (getF client "ClientID")).jsToString
      ++ " requests TaskID " ++ taskId ++ " which doesn't exist"
    entityType := .clients
    entityId := jsOr (getF client "ClientID") (.vStr ("row-" ++ toString i))
    field := some "RequestedTaskIDs"
    suggestion := some ("Remove " ++ taskId ++ " or add a task with this ID")
    canAutoFix := true }

/-- The `data.clients.forEach` loop of `validateReferences`: splitting a
non-string `RequestedTaskIDs` throws. -/
def validateReferencesGo (taskIDs : List JSVal) :
    ℕ → List Row → Except String (List ValidationResult)
  | _, [] => .ok []
  | i, client :: rest => do
    let here ←
      if (getF client "RequestedTaskIDs").truthy then do
        let parts ← jsSplit (getF client "RequestedTaskIDs")
        let requested := parts.map String.trim
        let invalid := requested.filter
          (fun tid => tid ≠ "" ∧ ¬ taskIDs.contains (JSVal.vStr tid))
        pure (invalid.map (refFinding client i))
      else pure []
    let rest' ← validateReferencesGo taskIDs (i + 1) rest
    pure (here ++ rest')

/-- `validateReferences` (`ValidationPanel.tsx` 194–222): every id mentioned
in a client's `RequestedTaskIDs` must be a (truthy) `TaskID` of some task. -/
def validateReferences (s : Store) : Except String (List ValidationResult) :=
  let taskIDs := (s.tasks.map (fun t => getF t "TaskID")).filter JSVal.truthy
  validateReferencesGo taskIDs 0 s.clients

/-- The skill-collection loop of `validateSkillCoverage`: splitting a
non-string `Skills` throws. -/
def collectWorkerSkills : List Row → Except String (List String)
  | [] => .ok []
  | w :: rest => do
    let here ←
      if (getF w "Skills").truthy then do
        let parts ← jsSplit (getF w "Skills")
        pure (parts.map (fun x => x.trim.toLower))
      else pure []
    let rest' ← collectWorkerSkills rest
    pure (here ++ rest')

/-- The Finding `validateSkillCoverage` emits for one uncovered skill. -/
def skillFinding (task : Row) (i : ℕ) (skill : String) : ValidationResult :=
  { id := "uncovered-skill-" ++ (getF task "TaskID").jsToString ++ "-" ++ skill
    type := "warning"
    category := "Skill Coverage"
    message := "No worker has skill: " ++ skill
    details := "Task " ++ (jsOr (getF task "TaskName") (getF task "TaskID")).jsToString
      ++ " requires " ++ skill ++ " but no worker has this skill"
    entityType := .tasks
    entityId := jsOr (getF task "TaskID") (.vStr ("row-" ++ toString i))
    field := some "RequiredSkills"
    suggestion := some ("Add a worker with " ++ skill ++ " skill or modify task requirements")
    canAutoFix := false }

/-- The `data.tasks.forEach` loop of `validateSkillCoverage`. -/
def validateSkillCoverageGo (workerSkills : List String) :
    ℕ → List Row → Except String (List ValidationResult)
  | _, [] => .ok []
  | i, task :: rest => do
    let here ←
      if (getF task "RequiredSkills").truthy then do
        let parts ← jsSplit (getF task "RequiredSkills")
        let required := parts.map (fun x => x.trim.toLower)
        let uncovered := required.filter
          (fun sk => sk ≠ "" ∧ ¬ workerSkills.contains sk)
        pure (uncovered.map (skillFinding task i))
      else pure []
    let rest' ← validateSkillCoverageGo workerSkills (i + 1) rest
    pure (here ++ rest')

/-- `validateSkillCoverage` (`ValidationPanel.tsx` 224–260). -/
def validateSkillCoverage (s : Store) : Except String (List ValidationResult) :=
  do
    let workerSkills ← collectWorkerSkills s.workers
    validateSkillCoverageGo workerSkills 0 s.tasks

/-- `parseInt(c.PriorityLevel) >= 4` (`NaN >= 4` is false). -/
def isHighPriority (c : Row) : Bool :=
  match jsParseInt (getF c "PriorityLevel") with
  | some n => n ≥ 4
  | none => false

/-- `!w.Skills || w.Skills.split(',').length <= 2` — throws on a truthy
non-string `Skills`. -/
def isLowSkill (w : Row) : Except String Bool :=
  if (getF w "Skills").truthy then do
    let parts ← jsSplit (getF w "Skills")
    pure (decide (parts.length ≤ 2))
  else pure true

/-- The `data.workers.filter(...)` of `generateAISuggestions`, sequenced in
order so that the first thrown `TypeError` propagates. -/
def lowSkillWorkers : List Row → Except String (List Row)
  | [] => .ok []
  | w :: rest => do
    let b ← isLowSkill w
    let rest' ← lowSkillWorkers rest
    pure (if b then w :: rest' else rest')

/-- `generateAISuggestions` (`ValidationPanel.tsx` 263–299). -/
def generateAISuggestions (s : Store) : Except String (List ValidationResult) := do
  let highPriorityClients := s.clients.filter isHighPriority
  let lowSkill ← lowSkillWorkers s.workers
  let part1 :=
    if (highPriorityClients.length : ℚ) > (s.workers.length : ℚ) * (1/2) then
      [{ id := "ai-too-many-high-priority"
         type := "info"
         category := "AI Insight"
         message := "High ratio of high-priority clients"
         details := toString highPriorityClients.length
           ++ " clients have priority 4-5, but only "
           ++ toString s.workers.length ++ " workers available"
         entityType := .clients
         entityId := .vStr "analysis"
         field := none
         suggestion := some "Consider balancing priority levels or adding more workers"
         canAutoFix := false }]
    else []
  let part2 :=
    if (lowSkill.length : ℚ) > (s.workers.length : ℚ) * (3/10) then
      [{ id := "ai-skill-diversity"
         type := "info"
         category := "AI Insight"
         message := "Low skill diversity among workers"
         details := toString lowSkill.length ++ " workers have limited skills (≤2)"
         entityType := .workers
         entityId := .vStr "analysis"
         field := none
         suggestion := some "Consider cross-training workers to increase skill coverage"
         canAutoFix := false }]
    else []
  pure (part1 ++ part2)

/-- `runValidation` (`ValidationPanel.tsx` 301–357): the fixed battery, in
source order, concatenated.  A thrown `TypeError` in any step aborts the
run (the promise rejects); state updates, progress and toasts are
presentation and not modelled. -/
def runValidation (jp : String → Bool) (s : Store) :
    Except String (List ValidationResult) := do
  let step1 := validateMissingColumns .clients s.clients
    ++ validateMissingColumns .workers s.workers
    ++ validateMissingColumns .tasks s.tasks
  let step2 := validateDuplicateIDs .clients s.clients
    ++ validateDuplicateIDs .workers s.workers
    ++ validateDuplicateIDs .tasks s.tasks
  let step3 := validateDataTypes jp .clients s.clients
    ++ validateDataTypes jp .workers s.workers
    ++ validateDataTypes jp .tasks s.tasks
  let step4 ← validateReferences s
  let step5 ← validateSkillCoverage s
  let step6 ← generateAISuggestions s
  pure (step1 ++ step2 ++ step3 ++ step4 ++ step5 ++ step6)

end Validation

section AutoFix

/-- The `entityArray.forEach` rename loop of the Duplicate ID branch of
`autoFixIssue` (`ValidationPanel.tsx` 381–385): every item whose primary key
strictly equals the offending id — the first occurrence included — is
renamed to `` `${id}_${index + 1}` `` with its (0-based) array index. -/
def renameDupGo (idF : String) (eid : JSVal) : ℕ → List Row → List Row
  | _, [] => []
  | i, item :: rest =>
    (if getF item idF = eid then
      setF item idF (.vStr (eid.jsToString ++ "_" ++ toString (i + 1)))
     else item) :: renameDupGo idF eid (i + 1) rest

/-- `(item.ClientID || item.WorkerID || item.TaskID) === result.entityId` —
the lookup predicate of the Out-of-range and Broken JSON branches. -/
def entityMatch (eid : JSVal) (item : Row) : Bool :=
  decide (jsOr (getF item "ClientID") (jsOr (getF item "WorkerID") (getF item "TaskID")) = eid)

/-- The field rewrite of the Out-of-range branch (`ValidationPanel.tsx`
393–399): `PriorityLevel` becomes `Math.max(1, Math.min(5, parseInt(v) || 3))`,
`Duration`/`MaxLoadPerPhase` become `Math.max(1, parseInt(v) || 1)`; any
other field is left alone. -/
def fixRangeItem (fld : String) (item : Row) : Row :=
  if fld = "PriorityLevel" then
    setF item fld (.vNum (max 1 (min 5 (jsOrNum (jsParseInt (getF item fld)) 3))))
  else if fld = "Duration" ∨ fld = "MaxLoadPerPhase" then
    setF item fld (.vNum (max 1 (jsOrNum (jsParseInt (getF item fld)) 1)))
  else item

/-- Replace the collection of a store selected by entity type. -/
def Store.setColl (s : Store) : EntityType → List Row → Store
  | .clients, l => { s with clients := l }
  | .workers, l => { s with workers := l }
  | .tasks, l => { s with tasks := l }

/-- `autoFixIssue` (`ValidationPanel.tsx` 369–421), as the store
transformation it performs (the re-validation it schedules and the toast are
the caller's concern).  Dispatch is on `result.category`; a category with no
branch — notably `Unknown Reference` — changes nothing. -/
def autoFixIssue (s : Store) (result : ValidationResult) : Store :=
  if ¬ result.canAutoFix then s
  else if result.category = "Duplicate ID" then
    s.setColl result.entityType
      (renameDupGo (idField result.entityType) result.entityId 0 (s.coll result.entityType))
  else if result.category = "Out-of-range Value" then
    let arr := s.coll result.entityType
    match arr.findIdx? (entityMatch result.entityId), result.field with
    | some j, some fld =>
      match arr.get? j with
      | some item => s.setColl result.entityType (arr.set j (fixRangeItem fld item))
      | none => s
    | _, _ => s
  else if result.category = "Broken JSON" then
    let arr := s.coll result.entityType
    match arr.findIdx? (entityMatch result.entityId), result.field with
    | some j, some fld =>
      match arr.get? j with
      | some item => s.setColl result.entityType (arr.set j (setF item fld (.vStr "\x7b\x7d")))
      | none => s
    | _, _ => s
  else s

end AutoFix

section Fixtures
/-!
## Concrete stores and findings used by counterexamples and witnesses

None of these stores carries an `AttributesJSON` field, so the abstract
`JSON.parse` predicate is never consulted on them; `jpAll` is an arbitrary
instantiation.
-/

/-- An instantiation of the abstract `JSON.parse` predicate. -/
def jpAll : String → Bool := fun _ => true

/-- A client requesting the nonexistent task `T9`. -/
def c2Client : Row :=
  [("ClientID", .vStr "C1"), ("ClientName", .vStr "Acme"),
   ("PriorityLevel", .vStr "3"), ("RequestedTaskIDs", .vStr "T9")]

/-- A well-formed task `T1`. -/
def c2Task : Row :=
  [("TaskID", .vStr "T1"), ("TaskName", .vStr "Build"),
   ("Duration", .vStr "1"), ("RequiredSkills", .vStr "")]

/-- A store whose only validation issue is the dangling reference `T9`. -/
def c2Store : Store := { clients := [c2Client], workers := [], tasks := [c2Task] }

/-- The Unknown Reference finding `validateReferences` produces on
`c2Store`. -/
def c2Finding : ValidationResult := refFinding c2Client 0 "T9"

/-- A client whose `RequestedTaskIDs` is a (truthy) number — e.g. a numeric
cell produced by XLSX ingestion. -/
def c9Client : Row :=
  [("ClientID", .vStr "C1"), ("ClientName", .vStr "Acme"),
   ("PriorityLevel", .vStr "3"), ("RequestedTaskIDs", .vNum 7)]

/-- A store containing a malformed (non-string) `RequestedTaskIDs` row. -/
def c9Store : Store := { clients := [c9Client], workers := [], tasks := [] }

/-- First worker with `WorkerID = "W1"`. -/
def c3w1 : Row :=
  [("WorkerID", .vStr "W1"), ("WorkerName", .vStr "Alice"),
   ("Skills", .vStr "a,b,c"), ("AvailableSlots", .vStr "1,2")]

/-- Second worker with the same `WorkerID = "W1"`. -/
def c3w2 : Row :=
  [("WorkerID", .vStr "W1"), ("WorkerName", .vStr "Bob"),
   ("Skills", .vStr "a,b,c"), ("AvailableSlots", .vStr "1")]

/-- A store with two workers sharing `WorkerID = "W1"`. -/
def c3Store : Store := { clients := [], workers := [c3w1, c3w2], tasks := [] }

/-- The Duplicate ID finding `validateDuplicateIDs` produces on `c3Store`. -/
def c3Finding : ValidationResult := dupFinding .workers (.vStr "W1") 2

/-- A client row with `PriorityLevel = "0"` (out of range, parses to `0`). -/
def c5Client0 : Row :=
  [("ClientID", .vStr "C1"), ("ClientName", .vStr "Acme"),
   ("PriorityLevel", .vStr "0")]

/-- A store whose only issue is `PriorityLevel = "0"`. -/
def c5Store0 : Store := { clients := [c5Client0], workers := [], tasks := [] }

/-- The Out-of-range finding produced on `c5Store0`. -/
def c5Finding0 : ValidationResult :=
  { id := "invalid-priority-clients-0"
    type := "error"
    category := "Out-of-range Value"
    message := "Invalid PriorityLevel: 0"
    details := "PriorityLevel must be a number between 1 and 5"
    entityType := .clients
    entityId := .vStr "C1"
    field := some "PriorityLevel"
    suggestion := some "Set PriorityLevel to a value between 1-5"
    canAutoFix := true }

/-- A client row with `PriorityLevel = "9"` (the spec's clamping scenario). -/
def c5Client9 : Row :=
  [("ClientID", .vStr "C1"), ("ClientName", .vStr "Acme"),
   ("PriorityLevel", .vStr "9")]

/-- A store whose out-of-range issue is `PriorityLevel = "9"`. -/
def c5Store9 : Store := { clients := [c5Client9], workers := [], tasks := [] }

/-- The Out-of-range finding produced on `c5Store9`. -/
def c5Finding9 : ValidationResult :=
  { id := "invalid-priority-clients-0"
    type := "error"
    category := "Out-of-range Value"
    message := "Invalid PriorityLevel: 9"
    details := "PriorityLevel must be a number between 1 and 5"
    entityType := .clients
    entityId := .vStr "C1"
    field := some "PriorityLevel"
    suggestion := some "Set PriorityLevel to a value between 1-5"
    canAutoFix := true }

/-- A worker with `MaxLoadPerPhase = 0` (zero declared capacity). -/
def wZero : SimWorker :=
  { WorkerID := "W1", WorkerName := "Zoe", Skills := none,
    AvailableSlots := [], MaxLoadPerPhase := some 0 }

/-- A task with no required skills — compatible with every worker. -/
def tFree : SimTask :=
  { TaskID := some "T1", TaskName := some "Anything", RequiredSkills := none }

/-- One zero-capacity worker, one universally compatible task. -/
def dZero : SimData := { workers := [wZero], tasks := [tFree] }

/-- A worker with no skills and capacity 3. -/
def wNoSkill : SimWorker :=
  { WorkerID := "W2", WorkerName := "Ned", Skills := none,
    AvailableSlots := [], MaxLoadPerPhase := some 3 }

/-- A task requiring a skill nobody has. -/
def tSkilled : SimTask :=
  { TaskID := some "T2", TaskName := some "Hard", RequiredSkills := some "welding" }

/-- One worker incompatible with the only task. -/
def dIncompat : SimData := { workers := [wNoSkill], tasks := [tSkilled] }

/-- One worker, no tasks at all (simulated workload 0). -/
def dNoTasks : SimData := { workers := [wNoSkill], tasks := [] }

end Fixtures

section Helpers
/-! ## General-purpose lemmas about the embedding -/

instance {ε α : Type} [DecidableEq ε] [DecidableEq α] : DecidableEq (Except ε α) := fun a b =>
  match a, b with
  | .error e, .error f =>
    if h : e = f then .isTrue (by rw [h]) else .isFalse (by simpa using h)
  | .error _, .ok _ => .isFalse (by simp)
  | .ok _, .error _ => .isFalse (by simp)
  | .ok x, .ok y =>
    if h : x = y then .isTrue (by rw [h]) else .isFalse (by simpa using h)

/-- `Rat.floor` agrees with the mathematical floor. -/
theorem ratFloor_eq_intFloor (q : ℚ) : Rat.floor q = ⌊q⌋ := by
  rw [Rat.floor_def', Rat.floor_def]

end Helpers

/-- Assigning to a key under a distinct head leaves the head alone. -/
theorem setF_cons_ne (k₁ k : String) (v₁ : JSVal) (rest : Row) (v : JSVal) (hk : k₁ ≠ k) :
    setF ((k₁, v₁) :: rest) k v = (k₁, v₁) :: setF rest k v := by
  by_cases hmem : k ∈ rest.map Prod.fst
  · simp [setF, List.mem_cons, hmem, Ne.symm hk, hk]
  · simp [setF, List.mem_cons, hmem, Ne.symm hk, hk]

/-- Reading a key just assigned returns the assigned value. -/
theorem getF_setF (r : Row) (k : String) (v : JSVal) : getF (setF r k v) k = v := by
  induction r with
  | nil => simp [setF, getF]
  | cons p rest ih =>
    obtain ⟨k₁, v₁⟩ := p
    by_cases hk : k₁ = k
    · subst hk
      simp [setF, getF]
    · rw [setF_cons_ne _ _ _ _ _ hk, getF, if_neg hk, ih]

/-- The simulator never assigns more tasks than the effective capacity
`worker.MaxLoadPerPhase || 5`. -/
theorem length_simulateTaskAssignment_le (w : SimWorker) (tasks : List SimTask)
    (rules : List SimRule) (r : ℚ) :
    (simulateTaskAssignment w tasks rules r).length ≤ effectiveMaxLoad w := by
  unfold simulateTaskAssignment
  split
  · simp
  · simp only [List.length_map]
    refine le_trans (List.length_take_le _ _) ?_
    refine le_trans (Int.toNat_le_toNat (min_le_left _ _)) ?_
    simp

/-- A worker compatible with no task is assigned nothing, whatever the
`Math.random` draw. -/
theorem simulateTaskAssignment_incompat (w : SimWorker) (tasks : List SimTask)
    (rules : List SimRule) (r : ℚ)
    (hc : ∀ t ∈ tasks, compatible w t = false) :
    simulateTaskAssignment w tasks rules r = [] := by
  unfold simulateTaskAssignment
  split
  · rfl
  · have hfil : tasks.filter (fun t => compatible w t) = [] := by
      rw [List.filter_eq_nil_iff]
      intro t ht
      simp [hc t ht]
    rw [hfil]
    simp

/-- The workload entry is the assigned-task count. -/
theorem allocEntry_workload_eq (tasks : List SimTask) (rules : List SimRule)
    (rand : ℕ → ℚ) (i : ℕ) (w : SimWorker) :
    (allocEntry tasks rules rand i w).workload =
      ((simulateTaskAssignment w tasks rules (rand i)).length : ℤ) := rfl

/-- Simulated efficiency is clamped below by `0`. -/
theorem allocEntry_efficiency_nonneg (tasks : List SimTask) (rules : List SimRule)
    (rand : ℕ → ℚ) (i : ℕ) (w : SimWorker) :
    0 ≤ (allocEntry tasks rules rand i w).efficiency := le_max_left 0 _

/-- Simulated efficiency is clamped above by `100`. -/
theorem allocEntry_efficiency_le (tasks : List SimTask) (rules : List SimRule)
    (rand : ℕ → ℚ) (i : ℕ) (w : SimWorker) :
    (allocEntry tasks rules rand i w).efficiency ≤ 100 := by
  unfold allocEntry
  simp only
  exact max_le (by norm_num) (min_le_left _ _)

/-- The simulator output is positionally related to the worker collection:
any relation that holds between `allocEntry` and its worker holds pairwise. -/
theorem forall₂_simulateAllocGo {tasks : List SimTask} {rules : List SimRule}
    {rand : ℕ → ℚ} {P : AllocationResult → SimWorker → Prop}
    (h : ∀ i w, P (allocEntry tasks rules rand i w) w) :
    ∀ (ws : List SimWorker) (i0 : ℕ),
      List.Forall₂ P (simulateAllocGo tasks rules rand i0 ws) ws
  | [], _ => List.Forall₂.nil
  | w :: ws, i0 =>
    List.Forall₂.cons (h i0 w) (forall₂_simulateAllocGo h ws (i0 + 1))

/-- The worker loop consumes exactly one `Math.random` draw per worker:
draw streams agreeing on the consumed indices give identical output. -/
theorem simulateAllocGo_congr (tasks : List SimTask) (rules : List SimRule)
    (r1 r2 : ℕ → ℚ) :
    ∀ (ws : List SimWorker) (i0 : ℕ),
      (∀ j, j < ws.length → r1 (i0 + j) = r2 (i0 + j)) →
      simulateAllocGo tasks rules r1 i0 ws = simulateAllocGo tasks rules r2 i0 ws
  | [], _, _ => rfl
  | w :: ws, i0, h => by
    unfold simulateAllocGo
    have h0 : r1 i0 = r2 i0 := by
      simpa using h 0 (by simp only [List.length_cons]; omega)
    have hrec : simulateAllocGo tasks rules r1 (i0 + 1) ws
        = simulateAllocGo tasks rules r2 (i0 + 1) ws := by
      refine simulateAllocGo_congr tasks rules r1 r2 ws (i0 + 1) ?_
      intro j hj
      have hx : i0 + 1 + j = i0 + (j + 1) := by omega
      rw [hx]
      exact h (j + 1) (by simp only [List.length_cons]; omega)
    rw [hrec]
    unfold allocEntry
    rw [h0]

/-- Every member of the simulator output is an `allocEntry` of some worker. -/
theorem mem_simulateAllocGo {tasks : List SimTask} {rules : List SimRule}
    {rand : ℕ → ℚ} {r : AllocationResult} :
    ∀ {ws : List SimWorker} {i0 : ℕ},
      r ∈ simulateAllocGo tasks rules rand i0 ws →
      ∃ i w, w ∈ ws ∧ r = allocEntry tasks rules rand i w := by
  intro ws
  induction ws with
  | nil => intro i0 h; simp [simulateAllocGo] at h
  | cons w ws ih =>
    intro i0 h
    rw [simulateAllocGo] at h
    rcases List.mem_cons.mp h with h1 | h2
    · exact ⟨i0, w, by simp, h1⟩
    · obtain ⟨i, w', hw', hr⟩ := ih h2
      exact ⟨i, w', by simp [hw'], hr⟩

/-- A mapped list is pairwise related to its source by the graph of the map. -/
theorem forall₂_map_self {α β : Type} {P : β → α → Prop} (f : α → β) :
    ∀ (l : List α), (∀ x ∈ l, P (f x) x) → List.Forall₂ P (l.map f) l
  | [], _ => List.Forall₂.nil
  | a :: t, h => by
    simp only [List.map_cons]
    exact List.Forall₂.cons (h a (by simp))
      (forall₂_map_self f t (fun x hx => h x (by simp [hx])))

/-- Population variance is nonnegative. -/
theorem listVariance_nonneg (l : List ℚ) : 0 ≤ listVariance l := by
  unfold listVariance
  apply div_nonneg
  · apply List.sum_nonneg
    intro x hx
    obtain ⟨y, _, rfl⟩ := List.mem_map.mp hx
    positivity
  · exact Nat.cast_nonneg _

/-- The variance of a constant list is zero. -/
theorem listVariance_of_const (l : List ℚ) (c : ℚ) (h : ∀ x ∈ l, x = c) :
    listVariance l = 0 := by
  rcases eq_or_ne l [] with rfl | hne
  · simp [listVariance, listMean]
  · have hlen : (l.length : ℚ) ≠ 0 := by
      simp [List.length_eq_zero, hne]
    have hsum : l.sum = (l.length : ℚ) * c := by
      rw [List.sum_eq_card_nsmul l c h, nsmul_eq_mul]
    have hmean : listMean l = c := by
      unfold listMean
      rw [hsum, mul_comm, mul_div_assoc, div_self hlen, mul_one]
    have hz : (l.map (fun x => (x - listMean l) ^ 2)).sum = 0 := by
      apply List.sum_eq_zero
      intro y hy
      obtain ⟨x, hx, rfl⟩ := List.mem_map.mp hy
      rw [h x hx, hmean]
      ring
    unfold listVariance
    rw [hz, zero_div]

/-- `Math.floor(w * 0.8) ≤ w` for a nonnegative integer workload. -/
theorem ratFloor_mul_le_self (w : ℤ) (hw : 0 ≤ w) :
    Rat.floor ((w : ℚ) * (4/5)) ≤ w := by
  rw [ratFloor_eq_intFloor]
  calc ⌊(w : ℚ) * (4/5)⌋ ≤ ⌊((w : ℤ) : ℚ)⌋ := by
        apply Int.floor_le_floor
        have hw' : (0 : ℚ) ≤ (w : ℚ) := by exact_mod_cast hw
        nlinarith
    _ = w := Int.floor_intCast w

section Claims
/-! ## The claims -/

/-- C10: for every input data, objective string and random stream, the
optimizer's `improvements` list is the fixed four-element literal starting
with "Reduced overall worker stress by 15%", independent of input and of the
computed before/after results. -/
theorem C10_improvements_constant (data : SimData) (criteria : String) (rand : ℕ → ℚ) :
    (optimizeAllocation data criteria rand).improvements =
      ["Reduced overall worker stress by 15%",
       "Improved task distribution efficiency by 12%",
       "Balanced workload across teams",
       "Maintained high-priority client satisfaction"] := rfl

/-- C9: the claim that the validation battery never throws is violated by the
code: on a store whose client carries a truthy non-string `RequestedTaskIDs`
(here the number `7`), `validateReferences` invokes `.split` on a number and
the run aborts with a `TypeError` instead of producing a Finding. -/
theorem C9_validation_throws_on_nonstring :
    runValidation jpAll c9Store = .error "TypeError: split is not a function" := by
  with_unfolding_all rfl

/-- C2: the fix-then-validate claim is violated by the code for the Unknown
Reference category: the finding is flagged `canAutoFix`, but `autoFixIssue`
has no branch for the category, so the store is returned unchanged and
re-validation reproduces the very same finding (same category, entityId and
field). -/
theorem C2_unknown_reference_fix_is_noop :
    runValidation jpAll c2Store = .ok [c2Finding] ∧
    c2Finding.canAutoFix = true ∧
    c2Finding.category = "Unknown Reference" ∧
    autoFixIssue c2Store c2Finding = c2Store ∧
    runValidation jpAll (autoFixIssue c2Store c2Finding) = .ok [c2Finding] := by
  refine ⟨?_, rfl, rfl, ?_, ?_⟩
  · with_unfolding_all rfl
  · with_unfolding_all rfl
  · with_unfolding_all rfl

/-- C1 counterexample: with the store, rules and weights all fixed, two runs
of the simulator that observe different `Math.random` draws return different
output — the selection is randomized, so the simulator is not a function of
`(store, rules, weights)` alone. -/
theorem C1_counterexample_random_draws :
    simulateAllocation dZero [] [] (fun _ => 0)
      ≠ simulateAllocation dZero [] [] (fun _ => 3/5) := by
  with_unfolding_all decide

/-- C1 amended: the simulator is deterministic once the `Math.random` draws
are fixed — two invocations with identical inputs whose draw streams agree
on the consumed indices (one per worker) return identical output. -/
theorem C1_deterministic_given_draws (data : SimData) (rules : List SimRule)
    (priorities : SimPriorities) (r1 r2 : ℕ → ℚ)
    (h : ∀ i, i < data.workers.length → r1 i = r2 i) :
    simulateAllocation data rules priorities r1
      = simulateAllocation data rules priorities r2 := by
  unfold simulateAllocation
  exact simulateAllocGo_congr _ _ _ _ _ 0 (fun j hj => by simpa using h j hj)

/-- C1 witness: the amended determinism theorem applied at a concrete store
and a concrete pair of (equal) draw streams. -/
theorem C1_deterministic_given_draws_witness :
    (∀ i, i < dZero.workers.length → (fun _ => (0:ℚ)) i = (fun _ => (0:ℚ)) i) ∧
    simulateAllocation dZero [] [] (fun _ => 0)
      = simulateAllocation dZero [] [] (fun _ => 0) :=
  ⟨fun _ _ => rfl,
   C1_deterministic_given_draws dZero [] [] (fun _ => 0) (fun _ => 0) (fun _ _ => rfl)⟩

/-- C4 counterexample: a worker with `MaxLoadPerPhase = 0` is treated as
having the default capacity 5 (`|| 5` replaces a falsy `0`), so it can be
assigned a task: its workload 1 exceeds its declared `MaxLoadPerPhase` 0. -/
theorem C4_counterexample_zero_capacity :
    dZero.workers.map (fun w => w.MaxLoadPerPhase) = [some 0] ∧
    (simulateAllocation dZero [] [] (fun _ => 3/5)).map (fun r => r.workload) = [1] ∧
    ¬ ((1 : ℤ) ≤ 0) := by
  refine ⟨rfl, ?_, by norm_num⟩
  with_unfolding_all rfl

/-- C4 amended: for every input (rules are never read, so in particular no
rule raises capacity) each worker's simulated workload is bounded by the
worker's effective capacity `MaxLoadPerPhase || 5`; in particular
`workload ≤ MaxLoadPerPhase` whenever `MaxLoadPerPhase` is present and
nonzero. -/
theorem C4_capacity_bound_amended (data : SimData) (rules : List SimRule)
    (priorities : SimPriorities) (rand : ℕ → ℚ) :
    List.Forall₂ (fun r w => r.workload ≤ (effectiveMaxLoad w : ℤ) ∧
        ∀ m : ℕ, w.MaxLoadPerPhase = some m → m ≠ 0 → r.workload ≤ (m : ℤ))
      (simulateAllocation data rules priorities rand) data.workers := by
  unfold simulateAllocation
  apply forall₂_simulateAllocGo
  intro i w
  constructor
  · rw [allocEntry_workload_eq]
    exact_mod_cast length_simulateTaskAssignment_le w data.tasks rules (rand i)
  · intro m hm hm0
    rw [allocEntry_workload_eq]
    have heq : effectiveMaxLoad w = m := by simp [effectiveMaxLoad, hm, hm0]
    have hle := length_simulateTaskAssignment_le w data.tasks rules (rand i)
    rw [heq] at hle
    exact_mod_cast hle

/-- C6 counterexample: the zero-capacity half of the claim is violated by
the code: a worker with `MaxLoadPerPhase = 0` is given the default capacity
5 by `|| 5`, and with a compatible task available its workload is 1, not 0. -/
theorem C6_counterexample_zero_capacity :
    dZero.workers.map (fun w => w.MaxLoadPerPhase) = [some 0] ∧
    (simulateAllocation dZero [] [] (fun _ => 3/5)).map (fun r => r.workload) = [1] ∧
    (1 : ℤ) ≠ 0 := by
  refine ⟨rfl, ?_, by norm_num⟩
  with_unfolding_all rfl

/-- C6 amended: a worker compatible with no task (every task has some
required skill the worker lacks) receives `workload = 0`, `efficiency = 0`
and `stress = low`, whatever the random draws; the zero-capacity clause of
the original claim is dropped, since `MaxLoadPerPhase = 0` is replaced by
the default capacity 5. -/
theorem C6_no_compatible_task_amended (data : SimData) (rules : List SimRule)
    (priorities : SimPriorities) (rand : ℕ → ℚ) :
    List.Forall₂ (fun r w =>
        (∀ t ∈ data.tasks, compatible w t = false) →
        r.workload = 0 ∧ r.efficiency = 0 ∧ r.stress = Stress.low)
      (simulateAllocation data rules priorities rand) data.workers := by
  unfold simulateAllocation
  apply forall₂_simulateAllocGo
  intro i w hc
  have hempty := simulateTaskAssignment_incompat w data.tasks rules (rand i) hc
  unfold allocEntry
  simp only [hempty, List.length_nil, Nat.cast_zero, Int.cast_zero, zero_div, zero_mul]
  refine ⟨trivial, by norm_num, ?_⟩
  rw [if_neg (not_lt.mpr (by positivity)), if_neg (not_lt.mpr (by positivity))]

/-- C7: when the objective contains "fair", every worker's after-workload is
set to the same rounded mean of the before-workloads, so the variance of the
after-workloads (zero) is at most the variance of the before-workloads. -/
theorem C7_fair_variance (data : SimData) (criteria : String) (rand : ℕ → ℚ)
    (hfair : strIncludes criteria "fair" = true) :
    listVariance ((optimizeAllocation data criteria rand).after.map
        (fun r => (r.workload : ℚ)))
      ≤ listVariance ((optimizeAllocation data criteria rand).before.map
        (fun r => (r.workload : ℚ))) := by
  have hafter : (optimizeAllocation data criteria rand).after
      = (simulateAllocation data [] [] rand).map
          (optimizeEntry data criteria (simulateAllocation data [] [] rand)) := rfl
  have hconst : ∀ x ∈ (optimizeAllocation data criteria rand).after.map
      (fun r => (r.workload : ℚ)),
      x = ((jsRound ((((simulateAllocation data [] [] rand).map
            (fun r => (r.workload : ℚ))).sum)
          / (((simulateAllocation data [] [] rand).length : ℕ) : ℚ)) : ℤ) : ℚ) := by
    intro x hx
    obtain ⟨r, hr, rfl⟩ := List.mem_map.mp hx
    rw [hafter] at hr
    obtain ⟨b, hb, rfl⟩ := List.mem_map.mp hr
    unfold optimizeEntry
    simp [hfair]
  rw [listVariance_of_const _ _ hconst]
  exact listVariance_nonneg _

/-- C7 witness: the fair-variance theorem applied to a concrete store and
the objective string "fair". -/
theorem C7_fair_variance_witness :
    strIncludes "fair" "fair" = true ∧
    listVariance ((optimizeAllocation dZero "fair" (fun _ => 0)).after.map
        (fun r => (r.workload : ℚ)))
      ≤ listVariance ((optimizeAllocation dZero "fair" (fun _ => 0)).before.map
        (fun r => (r.workload : ℚ))) :=
  ⟨by decide, C7_fair_variance dZero "fair" (fun _ => 0) (by decide)⟩

/-- C8 counterexample: for a worker whose before-workload is 0, the cost
branch `Math.max(1, Math.floor(workload * 0.8))` raises the workload to 1,
so the after-workload exceeds the before-workload. -/
theorem C8_counterexample_zero_workload :
    (optimizeAllocation dNoTasks "cost" (fun _ => 0)).before.map
        (fun r => r.workload) = [0] ∧
    (optimizeAllocation dNoTasks "cost" (fun _ => 0)).after.map
        (fun r => r.workload) = [1] ∧
    ¬ ((1 : ℤ) ≤ 0) := by
  refine ⟨?_, ?_, by norm_num⟩
  · with_unfolding_all rfl
  · with_unfolding_all rfl

/-- C8 amended: when the objective contains "cost" and not "fair", each
worker's after-workload is at most `max(before-workload, 1)` — so it is at
most the before-workload whenever that is at least 1, a zero workload being
bumped to 1 — and each worker's after-efficiency is at least its
before-efficiency. -/
theorem C8_cost_amended (data : SimData) (criteria : String) (rand : ℕ → ℚ)
    (hcost : strIncludes criteria "cost" = true)
    (hfair : strIncludes criteria "fair" = false) :
    List.Forall₂ (fun a b => a.workload ≤ max b.workload 1 ∧ b.efficiency ≤ a.efficiency)
      (optimizeAllocation data criteria rand).after
      (optimizeAllocation data criteria rand).before := by
  have hafter : (optimizeAllocation data criteria rand).after
      = ((optimizeAllocation data criteria rand).before).map
          (optimizeEntry data criteria ((optimizeAllocation data criteria rand).before)) := rfl
  rw [hafter]
  apply forall₂_map_self
  intro b hbmem
  have hbmem' : b ∈ simulateAllocation data [] [] rand := hbmem
  unfold simulateAllocation at hbmem'
  obtain ⟨i, w, _, rfl⟩ := mem_simulateAllocGo hbmem'
  have hwl : 0 ≤ (allocEntry data.tasks [] rand i w).workload := by
    rw [allocEntry_workload_eq]
    positivity
  have heff0 := allocEntry_efficiency_nonneg data.tasks [] rand i w
  have heff100 := allocEntry_efficiency_le data.tasks [] rand i w
  constructor
  · show (optimizeEntry data criteria _ _).workload ≤ _
    unfold optimizeEntry
    simp only [hcost, hfair, if_true, if_false, Bool.false_eq_true]
    refine max_le ?_ ?_
    · exact le_max_right _ _
    · exact le_trans (ratFloor_mul_le_self _ hwl) (le_max_left _ _)
  · show _ ≤ (optimizeEntry data criteria _ _).efficiency
    unfold optimizeEntry
    simp only [hcost, hfair, if_true, if_false, Bool.false_eq_true]
    by_cases hp : strIncludes criteria "priority" = true
    · simp only [hp, if_true]
      refine le_min heff100 ?_
      nlinarith
    · simp only [hp, if_false]
      refine le_min heff100 ?_
      nlinarith

/-- C8 witness: the amended cost theorem applied to a concrete store and the
objective string "cost". -/
theorem C8_cost_amended_witness :
    strIncludes "cost" "cost" = true ∧ strIncludes "cost" "fair" = false ∧
    List.Forall₂ (fun a b => a.workload ≤ max b.workload 1 ∧ b.efficiency ≤ a.efficiency)
      (optimizeAllocation dNoTasks "cost" (fun _ => 0)).after
      (optimizeAllocation dNoTasks "cost" (fun _ => 0)).before :=
  ⟨by decide, by decide,
   C8_cost_amended dNoTasks "cost" (fun _ => 0) (by decide) (by decide)⟩

/-- The collection written by `setColl` is the collection `coll` reads. -/
theorem Store.coll_setColl (s : Store) (t : EntityType) (l : List Row) :
    (s.setColl t l).coll t = l := by
  cases t <;> rfl

/-- Elementwise description of the Duplicate ID rename loop: the item at
position `i` is renamed to `` `${id}_${i0 + i + 1}` `` when its key equals the
offending id, and left alone otherwise. -/
theorem renameDupGo_getD (idF : String) (eid : JSVal) :
    ∀ (l : List Row) (i0 i : ℕ), i < l.length →
      (renameDupGo idF eid i0 l).getD i []
        = (if getF (l.getD i []) idF = eid
           then setF (l.getD i []) idF
             (.vStr (eid.jsToString ++ "_" ++ toString (i0 + i + 1)))
           else l.getD i [])
  | [], _, _, h => absurd h (by simp)
  | x :: xs, i0, 0, _ => by
    simp only [renameDupGo, List.getD_cons_zero]
  | x :: xs, i0, i + 1, h => by
    simp only [renameDupGo, List.getD_cons_succ]
    rw [renameDupGo_getD idF eid xs (i0 + 1) i (by simpa using h)]
    have hx : i0 + 1 + i + 1 = i0 + (i + 1) + 1 := by omega
    rw [hx]

/-- C3 counterexample: on two workers sharing `WorkerID = "W1"`, the
Duplicate ID auto-fix renames the FIRST occurrence as well — afterwards the
first worker's id is `"W1_1"`, not the claimed unchanged `"W1"` (the second
becomes `"W1_2"` as claimed). -/
theorem C3_counterexample_first_renamed :
    runValidation jpAll c3Store = .ok [c3Finding] ∧
    (autoFixIssue c3Store c3Finding).workers.map (fun w => getF w "WorkerID")
      = [.vStr "W1_1", .vStr "W1_2"] ∧
    JSVal.vStr "W1_1" ≠ JSVal.vStr "W1" := by
  refine ⟨?_, ?_, by simp⟩
  · with_unfolding_all rfl
  · with_unfolding_all rfl

/-- C3 amended: the Duplicate ID auto-fix renames EVERY record whose primary
key equals the offending id — the first occurrence included — appending the
1-based array position of the record as suffix, and leaves every other
record unchanged; for two workers sharing `"W1"` at positions 1 and 2 the
results are `"W1_1"` and `"W1_2"`. -/
theorem C3_dup_fix_renames_all (s : Store) (f : ValidationResult) (i : ℕ)
    (hca : f.canAutoFix = true) (hcat : f.category = "Duplicate ID")
    (hi : i < (s.coll f.entityType).length) :
    (getF ((s.coll f.entityType).getD i []) (idField f.entityType) = f.entityId →
      getF (((autoFixIssue s f).coll f.entityType).getD i []) (idField f.entityType)
        = .vStr (f.entityId.jsToString ++ "_" ++ toString (i + 1))) ∧
    (getF ((s.coll f.entityType).getD i []) (idField f.entityType) ≠ f.entityId →
      ((autoFixIssue s f).coll f.entityType).getD i []
        = (s.coll f.entityType).getD i []) := by
  have hfix : (autoFixIssue s f).coll f.entityType
      = renameDupGo (idField f.entityType) f.entityId 0 (s.coll f.entityType) := by
    unfold autoFixIssue
    rw [if_neg (by simp [hca]), if_pos hcat]
    exact Store.coll_setColl _ _ _
  constructor
  · intro hid
    rw [hfix, renameDupGo_getD _ _ _ 0 i hi, if_pos hid, getF_setF]
    simp
  · intro hne
    rw [hfix, renameDupGo_getD _ _ _ 0 i hi, if_neg hne]

/-- C3 witness: the rename theorem applied to the concrete two-worker store
at position 2 (index 1): the second `"W1"` becomes `"W1_2"`. -/
theorem C3_dup_fix_renames_all_witness :
    c3Finding.canAutoFix = true ∧
    c3Finding.category = "Duplicate ID" ∧
    1 < (c3Store.coll c3Finding.entityType).length ∧
    getF ((c3Store.coll c3Finding.entityType).getD 1 []) (idField c3Finding.entityType)
      = c3Finding.entityId ∧
    getF (((autoFixIssue c3Store c3Finding).coll c3Finding.entityType).getD 1 [])
        (idField c3Finding.entityType)
      = .vStr (c3Finding.entityId.jsToString ++ "_" ++ toString (1 + 1)) :=
  ⟨rfl, rfl, by decide, rfl,
   (C3_dup_fix_renames_all c3Store c3Finding 1 rfl rfl (by decide)).1 rfl⟩

/-- C5 counterexample: a client with `PriorityLevel = "0"` parses to the
falsy `0`, so `parseInt(v) || 3` substitutes the default `3` — not the
nearest valid bound `1` the claim requires. -/
theorem C5_counterexample_zero_priority :
    runValidation jpAll c5Store0 = .ok [c5Finding0] ∧
    (autoFixIssue c5Store0 c5Finding0).clients.map (fun c => getF c "PriorityLevel")
      = [.vNum 3] ∧
    JSVal.vNum 3 ≠ JSVal.vNum 1 := by
  refine ⟨?_, ?_, by simp⟩
  · with_unfolding_all rfl
  · with_unfolding_all rfl

/-- C5 amended: the Out-of-range auto-fix sets the offending numeric field
to a value in range.  For `PriorityLevel` the result lies in `[1, 5]`: a
value parsing to a NONZERO integer is clamped to the nearest bound
(`max 1 (min 5 n)`, so `"9"` becomes `5`), while an unparsable value OR a
value parsing to `0` (falsy, caught by `|| 3`) becomes the default `3` — not
the nearest bound `1` in the zero case.  For `Duration` and
`MaxLoadPerPhase` the result is at least `1`: a value parsing to a nonzero
integer is clamped to `max 1 n` (the nearest valid bound), and an unparsable
value or `0` becomes the default `1`, which coincides with the clamp. -/
theorem C5_range_fix_amended (s : Store) (f : ValidationResult) (j : ℕ) (item : Row)
    (fld : String)
    (hca : f.canAutoFix = true) (hcat : f.category = "Out-of-range Value")
    (hfld : f.field = some fld)
    (hkind : fld = "PriorityLevel" ∨ fld = "Duration" ∨ fld = "MaxLoadPerPhase")
    (hidx : (s.coll f.entityType).findIdx? (entityMatch f.entityId) = some j)
    (hget : (s.coll f.entityType).get? j = some item) :
    ∃ m : ℤ,
      getF (((autoFixIssue s f).coll f.entityType).getD j []) fld = .vNum m ∧
      1 ≤ m ∧
      (fld = "PriorityLevel" →
        m ≤ 5 ∧
        (∀ n : ℤ, jsParseInt (getF item fld) = some n → n ≠ 0 →
          m = max 1 (min 5 n)) ∧
        ((jsParseInt (getF item fld) = none ∨ jsParseInt (getF item fld) = some 0) →
          m = 3)) ∧
      ((fld = "Duration" ∨ fld = "MaxLoadPerPhase") →
        (∀ n : ℤ, jsParseInt (getF item fld) = some n → n ≠ 0 →
          m = max 1 n) ∧
        ((jsParseInt (getF item fld) = none ∨ jsParseInt (getF item fld) = some 0) →
          m = 1)) := by
  obtain ⟨hj, -⟩ := List.get?_eq_some.mp hget
  have hfix : (autoFixIssue s f).coll f.entityType
      = (s.coll f.entityType).set j (fixRangeItem fld item) := by
    unfold autoFixIssue
    rw [if_neg (by simp [hca]), if_neg (by simp [hcat]), if_pos hcat]
    simp only [hidx, hfld, hget]
    exact Store.coll_setColl _ _ _
  have hgetD : ((autoFixIssue s f).coll f.entityType).getD j []
      = fixRangeItem fld item := by
    rw [hfix, List.getD_eq_getElem?_getD, List.getElem?_set_self hj, Option.getD_some]
  rcases hkind with hP | hD
  · subst hP
    refine ⟨max 1 (min 5 (jsOrNum (jsParseInt (getF item "PriorityLevel")) 3)),
      ?_, le_max_left _ _, ?_, ?_⟩
    · rw [hgetD]
      unfold fixRangeItem
      rw [if_pos rfl]
      exact getF_setF _ _ _
    · intro _
      refine ⟨max_le (by norm_num) (min_le_left _ _), ?_, ?_⟩
      · intro n hn hn0
        rw [hn]
        simp [jsOrNum, hn0]
      · intro hcase
        rcases hcase with h | h <;> rw [h] <;> norm_num [jsOrNum]
    · intro hbad
      rcases hbad with h | h <;> exact absurd h (by decide)
  · have hPne : fld ≠ "PriorityLevel" := by
      rcases hD with h | h <;> subst h <;> decide
    refine ⟨max 1 (jsOrNum (jsParseInt (getF item fld)) 1),
      ?_, le_max_left _ _, ?_, ?_⟩
    · rw [hgetD]
      unfold fixRangeItem
      rw [if_neg hPne, if_pos hD]
      exact getF_setF _ _ _
    · intro h
      exact absurd h hPne
    · intro _
      constructor
      · intro n hn hn0
        rw [hn]
        simp [jsOrNum, hn0]
      · intro hcase
        rcases hcase with h | h <;> rw [h] <;> norm_num [jsOrNum]

/-- C5 witness: the amended range-fix theorem applied to the concrete store
with `PriorityLevel = "9"`; the fixed value is `5` (the spec's clamping
scenario). -/
theorem C5_range_fix_amended_witness :
    c5Finding9.canAutoFix = true ∧
    c5Finding9.category = "Out-of-range Value" ∧
    c5Finding9.field = some "PriorityLevel" ∧
    ("PriorityLevel" = "PriorityLevel" ∨ "PriorityLevel" = "Duration" ∨
      "PriorityLevel" = "MaxLoadPerPhase") ∧
    (c5Store9.coll c5Finding9.entityType).findIdx? (entityMatch c5Finding9.entityId)
      = some 0 ∧
    (c5Store9.coll c5Finding9.entityType).get? 0 = some c5Client9 ∧
    getF (((autoFixIssue c5Store9 c5Finding9).coll c5Finding9.entityType).getD 0 [])
        "PriorityLevel" = .vNum 5 ∧
    (∃ m : ℤ,
      getF (((autoFixIssue c5Store9 c5Finding9).coll c5Finding9.entityType).getD 0 [])
          "PriorityLevel" = .vNum m ∧
      1 ≤ m ∧
      ("PriorityLevel" = "PriorityLevel" →
        m ≤ 5 ∧
        (∀ n : ℤ, jsParseInt (getF c5Client9 "PriorityLevel") = some n → n ≠ 0 →
          m = max 1 (min 5 n)) ∧
        ((jsParseInt (getF c5Client9 "PriorityLevel") = none ∨
          jsParseInt (getF c5Client9 "PriorityLevel") = some 0) → m = 3)) ∧
      (("PriorityLevel" = "Duration" ∨ "PriorityLevel" = "MaxLoadPerPhase") →
        (∀ n : ℤ, jsParseInt (getF c5Client9 "PriorityLevel") = some n → n ≠ 0 →
          m = max 1 n) ∧
        ((jsParseInt (getF c5Client9 "PriorityLevel") = none ∨
          jsParseInt (getF c5Client9 "PriorityLevel") = some 0) → m = 1))) :=
  ⟨rfl, rfl, rfl, Or.inl rfl, by with_unfolding_all rfl, rfl,
   by with_unfolding_all rfl,
   C5_range_fix_amended c5Store9 c5Finding9 0 c5Client9 "PriorityLevel" rfl rfl rfl
     (Or.inl rfl) (by with_unfolding_all rfl) rfl⟩

/-- C4 witness: the amended capacity bound applied at a concrete store. -/
theorem C4_capacity_bound_amended_witness :
    List.Forall₂ (fun r w => r.workload ≤ (effectiveMaxLoad w : ℤ) ∧
        ∀ m : ℕ, w.MaxLoadPerPhase = some m → m ≠ 0 → r.workload ≤ (m : ℤ))
      (simulateAllocation dZero [] [] (fun _ => 0)) dZero.workers :=
  C4_capacity_bound_amended dZero [] [] (fun _ => 0)

/-- C6 witness: the amended theorem applied to a concrete store whose single
worker is compatible with no task. -/
theorem C6_no_compatible_task_amended_witness :
    (∀ t ∈ dIncompat.tasks, compatible wNoSkill t = false) ∧
    List.Forall₂ (fun r w =>
        (∀ t ∈ dIncompat.tasks, compatible w t = false) →
        r.workload = 0 ∧ r.efficiency = 0 ∧ r.stress = Stress.low)
      (simulateAllocation dIncompat [] [] (fun _ => 1/2)) dIncompat.workers :=
  ⟨by with_unfolding_all decide, C6_no_compatible_task_amended dIncompat [] [] (fun _ => 1/2)⟩

end Claims
